import Mathlib

set_option maxRecDepth 100000

/-!
Verification of the AI flashcard generation pipeline of the 10x-project
repository: the resilient OpenRouter retry client, the generation
endpoint's gating and persistence logic, the per-user rate limiter and
the acceptance workflow, shallowly embedded from the TypeScript source.
-/

/-- Retry configuration of the OpenRouter service
(`RetryConfig` in `openrouter.service`). -/
structure RetryConfig where
  attempts : Nat
  factor : Nat
  minTimeoutMs : Nat
deriving DecidableEq, Repr

/-- The default retry configuration used when the constructor receives no
`retry` option: 3 attempts, factor 2, minimum timeout 1000 ms. -/
def defaultRetryConfig : RetryConfig :=
  { attempts := 3, factor := 2, minTimeoutMs := 1000 }

/-- One provider response as observed by a single `fetch` inside
`OpenRouterService._request`: a 2xx success, an HTTP error with its status
and optional parsed `Retry-After` seconds, or a thrown network/timeout
error. -/
inductive ProviderResponse where
  | success : ProviderResponse
  | httpError (status : Nat) (retryAfter : Option Nat) : ProviderResponse
  | networkError : ProviderResponse
deriving DecidableEq, Repr

/-- Observable events of the retry loop: an HTTP call (one `fetch`
invocation), a sleep of the advertised `Retry-After` duration in
milliseconds, or a backoff sleep computed for the given attempt number. -/
inductive REvent where
  | httpCall : REvent
  | sleepRetryAfter (ms : Nat) : REvent
  | sleepBackoff (attempt : Nat) : REvent
deriving DecidableEq, Repr

/-- Outcome of `OpenRouterService._request`: whether it returned a parsed
response (`success = true`) or threw, together with the ordered trace of
HTTP calls and sleeps it performed. -/
structure ReqOutcome where
  success : Bool
  trace : List REvent
deriving DecidableEq, Repr

/-- Embedding of `OpenRouterService._shouldRetry`: no retry once the attempt ceiling is
reached; 429 retries; 5xx retries; other 4xx does not retry; anything else
(network errors reaching this classifier) retries. -/
def shouldRetry (cfg : RetryConfig) (status : Nat) (attempt : Nat) : Bool :=
  if cfg.attempts ≤ attempt then false
  else if status == 429 then true
  else if 500 ≤ status then true
  else if 400 ≤ status && status < 500 then false
  else true

/-- The body of the `for` loop of `OpenRouterService._request`, one
iteration per `attempt`, with `fuel` bounding the remaining iterations
(the caller passes `cfg.attempts + 1`, which is always enough).
Mirrors the source control flow: a 429 carrying `Retry-After` sleeps that
many seconds when `_shouldRetry` allows it; a 5xx with retries remaining
sleeps a backoff; any other HTTP error throws `OpenRouterAPIError`, which
the surrounding `catch` re-enters the loop on (without sleeping) unless
the attempt ceiling is reached; a network error backs off while attempts
remain. -/
def requestGo (cfg : RetryConfig) (resp : Nat → ProviderResponse) :
    Nat → Nat → ReqOutcome
  | _, 0 => ⟨false, []⟩
  | attempt, fuel + 1 =>
    if cfg.attempts < attempt then ⟨false, []⟩
    else
      let rest : ReqOutcome :=
        match resp attempt with
        | .success => ⟨true, []⟩
        | .networkError =>
          if attempt < cfg.attempts then
            let r := requestGo cfg resp (attempt + 1) fuel
            ⟨r.success, .sleepBackoff attempt :: r.trace⟩
          else ⟨false, []⟩
        | .httpError status retryAfter =>
          if status == 429 && retryAfter.isSome && shouldRetry cfg status attempt then
            let r := requestGo cfg resp (attempt + 1) fuel
            ⟨r.success, .sleepRetryAfter (retryAfter.getD 0 * 1000) :: r.trace⟩
          else if 500 ≤ status && shouldRetry cfg status attempt then
            let r := requestGo cfg resp (attempt + 1) fuel
            ⟨r.success, .sleepBackoff attempt :: r.trace⟩
          else if attempt == cfg.attempts then ⟨false, []⟩
          else
            let r := requestGo cfg resp (attempt + 1) fuel
            ⟨r.success, r.trace⟩
      ⟨rest.success, .httpCall :: rest.trace⟩

/-- Embedding of `OpenRouterService._request` as a whole: run the loop from attempt 1. -/
def request (cfg : RetryConfig) (resp : Nat → ProviderResponse) : ReqOutcome :=
  requestGo cfg resp 1 (cfg.attempts + 1)

/-- Number of HTTP calls (fetch invocations) in a trace. -/
def httpCalls (o : ReqOutcome) : Nat :=
  o.trace.count REvent.httpCall

/-- A provider that always answers HTTP 401. -/
def resp401 : Nat → ProviderResponse := fun _ => .httpError 401 none

/-- A provider that answers HTTP 500 on the first two attempts and then
succeeds. -/
def resp500twice : Nat → ProviderResponse := fun n =>
  if n ≤ 2 then .httpError 500 none else .success

/-- A provider whose first answer is a 429 without `Retry-After`, then
success. -/
def resp429bare : Nat → ProviderResponse := fun n =>
  if n == 1 then .httpError 429 none else .success

/-- A provider whose first answer is a 429 with `Retry-After: 2`, then
success. -/
def resp429after2 : Nat → ProviderResponse := fun n =>
  if n == 1 then .httpError 429 (some 2) else .success

/-- JavaScript `String.prototype.trim` whitespace set (the characters
relevant to this code base). -/
def isJsWhitespace (c : Char) : Bool :=
  c == ' ' || c == '\t' || c == '\n' || c == '\r' ||
  c == '\x0b' || c == '\x0c' || c == ' '

/-- JavaScript `trim`: strip leading and trailing whitespace. The zod
schema applies `.trim()` to `source_text` before its length checks. -/
def jsTrim (l : List Char) : List Char :=
  ((l.dropWhile isJsWhitespace).reverse.dropWhile isJsWhitespace).reverse

/-- Embedding of `OpenRouterService._calculateBackoff` over exact rationals: the raw
backoff is `minTimeoutMs * factor ^ (attempt - 1)`, a jitter of
`backoff * 0.25 * (random - 0.5)` is added (where `random` is the value
drawn from the uniform source on `[0, 1)`), and the result is capped at
30000 ms. -/
def calculateBackoff (cfg : RetryConfig) (attempt : Nat) (random : ℚ) : ℚ :=
  let backoff : ℚ := (cfg.minTimeoutMs : ℚ) * (cfg.factor : ℚ) ^ (attempt - 1)
  let jitter : ℚ := backoff * (1 / 4) * (random - 1 / 2)
  min (backoff + jitter) 30000

/-- The raw (un-jittered, uncapped) exponential backoff value. -/
def rawBackoff (cfg : RetryConfig) (attempt : Nat) : ℚ :=
  (cfg.minTimeoutMs : ℚ) * (cfg.factor : ℚ) ^ (attempt - 1)

/-- Embedding of `OpenRouterService._usageMetrics`: aggregate usage counters. -/
structure UsageMetrics where
  totalRequests : Nat
  successfulRequests : Nat
  failedRequests : Nat
  totalTokens : Nat
deriving DecidableEq, Repr

/-- The counters start at zero when the service is constructed. -/
def initialUsageMetrics : UsageMetrics :=
  { totalRequests := 0, successfulRequests := 0, failedRequests := 0,
    totalTokens := 0 }

/-- The shape of `SendMessageParams` relevant to the counter logic:
whether `userMessage` is truthy and how long `conversation` is
(`conversationLen = 0` also covers an absent conversation, which is
falsy in the source's `!params.conversation` check). -/
structure SendParams where
  hasUserMessage : Bool
  conversationLen : Nat
deriving DecidableEq, Repr

/-- What the downstream pipeline of `sendMessage` (payload build, HTTP
request, response formatting, schema validation) would do if reached:
succeed, possibly reporting a token count, or throw an error. -/
inductive SendResult where
  | ok (totalTokensReported : Option Nat) : SendResult
  | errorThrown : SendResult
deriving DecidableEq, Repr

/-- Embedding of `OpenRouterService.sendMessage`, restricted to its effect on the usage
counters and its success flag. `totalRequests` is incremented first; a
call failing the basic input validation returns early without touching
the other counters; otherwise exactly one of `successfulRequests` or
`failedRequests` is incremented depending on whether the pipeline threw. -/
def sendMessage (m : UsageMetrics) (p : SendParams) (outcome : SendResult) :
    UsageMetrics × Bool :=
  let m := { m with totalRequests := m.totalRequests + 1 }
  if !p.hasUserMessage && p.conversationLen == 0 then
    (m, false)
  else
    match outcome with
    | .ok tokens =>
      ({ m with successfulRequests := m.successfulRequests + 1,
                totalTokens := m.totalTokens + tokens.getD 0 }, true)
    | .errorThrown =>
      ({ m with failedRequests := m.failedRequests + 1 }, false)

/-- A row of the `generations` table as seen by the rate limiter:
its owning user and creation timestamp (milliseconds since epoch). -/
structure GenerationRow where
  user_id : String
  created_at : Int
deriving DecidableEq, Repr

/-- The count produced by the rate limiter's query: rows of `generations`
belonging to `userId` with `created_at ≥ now - 60*60*1000`
(the `eq`/`gte` filters of `checkGenerationRateLimit`). -/
def recentGenerationCount (rows : List GenerationRow) (now : Int)
    (userId : String) : Nat :=
  (rows.filter fun r =>
    r.user_id == userId && decide (now - 60 * 60 * 1000 ≤ r.created_at)).length

/-- Embedding of `checkGenerationRateLimit` from `rate-limit.ts`: fail-open (`true`)
when the count query errors, otherwise permit exactly when the
trailing-hour count is strictly below `limitPerHour` (default 10). -/
def checkGenerationRateLimit (rows : List GenerationRow) (queryError : Bool)
    (now : Int) (userId : String) (limitPerHour : Nat := 10) : Bool :=
  if queryError then true
  else recentGenerationCount rows now userId < limitPerHour

/-- The model allow-list of `generateFlashcardsSchema`
(`ALLOWED_MODELS` in `generation.validator`). -/
def allowedModels : List String :=
  ["openai/gpt-4o", "openai/gpt-4o-mini", "anthropic/claude-3.5-sonnet",
   "google/gemini-pro-1.5"]

/-- An incoming JSON body for the generate endpoint: `source_text` as a
character sequence, optional `model` string, optional numeric `count`
(kept as an exact rational so the `.int()` check is expressible). -/
structure GenerateRawBody where
  source_text : List Char
  model : Option String
  count : Option ℚ
deriving DecidableEq, Repr

/-- The validated generation input produced by a successful parse. -/
structure GenerateInput where
  source_text : List Char
  model : String
  count : Int
deriving DecidableEq, Repr

/-- Embedding of `generateFlashcardsSchema.safeParse`: trim `source_text` and require
its length in [1000, 10000]; `model` must be on the allow-list, defaulting
to `"openai/gpt-4o"` when omitted; `count` must be an integer in [5, 20],
defaulting to 10 when omitted. Returns `none` when any field fails. -/
def generateFlashcardsSafeParse (b : GenerateRawBody) : Option GenerateInput :=
  let t := jsTrim b.source_text
  if t.length < 1000 then none
  else if 10000 < t.length then none
  else
    match b.model with
    | some m =>
      if m ∈ allowedModels then
        match b.count with
        | some q =>
          if q.den == 1 && 5 ≤ q && q ≤ 20 then
            some { source_text := t, model := m, count := q.num }
          else none
        | none => some { source_text := t, model := m, count := 10 }
      else none
    | none =>
      match b.count with
      | some q =>
        if q.den == 1 && 5 ≤ q && q ≤ 20 then
          some { source_text := t, model := "openai/gpt-4o", count := q.num }
        else none
      | none =>
        some { source_text := t, model := "openai/gpt-4o", count := 10 }

/-- External operations the generate handler can perform after
authentication, in source order: the deck-ownership query, the rate-limit
count query, the AI generation call, and the two inserts. -/
inductive GenEffect where
  | deckQuery : GenEffect
  | rateLimitQuery : GenEffect
  | aiCall : GenEffect
  | auditInsert : GenEffect
  | errorLogInsert : GenEffect
deriving DecidableEq, Repr

/-- The kinds of records the generate endpoint can persist: a row in
`generations` (audit record) or a row in `generation_error_logs`. -/
inductive RecordKind where
  | audit : RecordKind
  | errorLog : RecordKind
deriving DecidableEq, Repr

/-- Outcome of `AIGenerationService.generateFlashcards`: a suggestion list
length with a wall-clock duration, or a thrown `AIGenerationError`
(`generateFlashcards` wraps every failure into that type). -/
inductive AIOutcome where
  | ok (suggestionsCount : Nat) (durationMs : Nat) : AIOutcome
  | genError (errorCode : String) : AIOutcome
deriving DecidableEq, Repr

/-- A deck row as returned by the ownership query. -/
structure Deck where
  user_id : String
deriving DecidableEq, Repr

/-- Inputs to one invocation of the generate endpoint `POST` handler:
the request data plus the outcome each external collaborator would
deliver if called. -/
structure GenerateCtx where
  deckIdPresent : Bool
  authOk : Bool
  userId : String
  body : GenerateRawBody
  deckLookup : Option Deck
  rateLimitOk : Bool
  aiOutcome : AIOutcome
  auditInsertOk : Bool
  errorLogInsertOk : Bool
deriving DecidableEq, Repr

/-- The HTTP response of the generate endpoint: a 200 payload carrying the
suggestions, or an error with status and machine-readable code. -/
inductive GenResponse where
  | ok (suggestionsCount : Nat) (durationMs : Nat) (model : String) : GenResponse
  | apiError (status : Nat) (code : String) : GenResponse
deriving DecidableEq, Repr

/-- Result of one generate invocation: the response, the ordered trace of
external operations performed, and the records actually created. -/
structure GenResult where
  response : GenResponse
  effects : List GenEffect
  created : List RecordKind
deriving DecidableEq, Repr

/-- The `POST` handler of `/api/decks/[deckId]/generate`, step by step as
in the source: deck-id presence, authentication, body validation, deck
lookup and ownership, rate limit, AI call, audit insert. A failed audit
insert throws, landing in the outer catch as a generic error (500, no
record); a thrown `AIGenerationError` yields a 422 after a best-effort
insert into `generation_error_logs` whose own failure is swallowed. -/
def generatePOST (ctx : GenerateCtx) : GenResult :=
  if !ctx.deckIdPresent then
    ⟨.apiError 400 "VALIDATION_ERROR", [], []⟩
  else if !ctx.authOk then
    ⟨.apiError 401 "UNAUTHORIZED", [], []⟩
  else
    match generateFlashcardsSafeParse ctx.body with
    | none => ⟨.apiError 400 "VALIDATION_ERROR", [], []⟩
    | some input =>
      match ctx.deckLookup with
      | none => ⟨.apiError 404 "DECK_NOT_FOUND", [.deckQuery], []⟩
      | some deck =>
        if deck.user_id != ctx.userId then
          ⟨.apiError 403 "FORBIDDEN", [.deckQuery], []⟩
        else if !ctx.rateLimitOk then
          ⟨.apiError 429 "RATE_LIMIT_EXCEEDED", [.deckQuery, .rateLimitQuery], []⟩
        else
          match ctx.aiOutcome with
          | .genError _ =>
            ⟨.apiError 422 "AI_GENERATION_FAILED",
             [.deckQuery, .rateLimitQuery, .aiCall, .errorLogInsert],
             if ctx.errorLogInsertOk then [.errorLog] else []⟩
          | .ok n d =>
            if ctx.auditInsertOk then
              ⟨.ok n d input.model,
               [.deckQuery, .rateLimitQuery, .aiCall, .auditInsert],
               [.audit]⟩
            else
              ⟨.apiError 500 "INTERNAL_SERVER_ERROR",
               [.deckQuery, .rateLimitQuery, .aiCall, .auditInsert],
               []⟩

/-- One item of the acceptance request body. -/
structure AcceptItem where
  front : List Char
  back : List Char
  was_edited : Bool
deriving DecidableEq, Repr

/-- Per-item checks of `acceptFlashcardsSchema`: `front` 1–5000
characters, `back` 1–10000 characters. -/
def acceptItemValid (i : AcceptItem) : Bool :=
  1 ≤ i.front.length && i.front.length ≤ 5000 &&
  1 ≤ i.back.length && i.back.length ≤ 10000

/-- Embedding of `acceptFlashcardsSchema.safeParse` success: 1–50 items, each valid. -/
def acceptBodyValid (items : List AcceptItem) : Bool :=
  1 ≤ items.length && items.length ≤ 50 && items.all acceptItemValid

/-- A flashcard row as handed to the batch insert, with the provenance
tag the handler computes. -/
structure InsertedFlashcard where
  front : List Char
  back : List Char
  source : String
deriving DecidableEq, Repr

/-- The row-building map of the acceptance handler: provenance
`"ai-edited"` when the caller flagged the item as edited, `"ai-full"`
otherwise. -/
def toInsertRow (i : AcceptItem) : InsertedFlashcard :=
  { front := i.front, back := i.back,
    source := if i.was_edited then "ai-edited" else "ai-full" }

/-- External operations of the acceptance handler, in source order. -/
inductive AcceptEffect where
  | generationQuery : AcceptEffect
  | flashcardsQuery : AcceptEffect
  | recentDeckQuery : AcceptEffect
  | deckQuery : AcceptEffect
  | insert (rows : List InsertedFlashcard) : AcceptEffect
deriving DecidableEq, Repr

/-- A generation audit row as returned by the ownership query. -/
structure GenerationOwner where
  user_id : String
deriving DecidableEq, Repr

/-- Inputs to one invocation of the acceptance `POST` handler. -/
structure AcceptCtx where
  generationIdPresent : Bool
  authOk : Bool
  userId : String
  items : List AcceptItem
  generationLookup : Option GenerationOwner
  deckIdParam : Option String
  existingFlashcardDeck : Option String
  recentDeck : Option String
  deckLookup : Option Deck
  insertOk : Bool
deriving DecidableEq, Repr

/-- The HTTP response of the acceptance endpoint. -/
inductive AcceptResponse where
  | created (count : Nat) (rows : List InsertedFlashcard) : AcceptResponse
  | apiError (status : Nat) (code : String) : AcceptResponse
deriving DecidableEq, Repr

/-- The `POST` handler of `/api/generations/[generationId]/accept`:
generation-id presence, authentication, body validation (1–50 items),
generation ownership, deck resolution (query parameter, else the deck of
existing flashcards of this generation, else the most recently updated
deck), deck ownership, then one batch insert of all rows. -/
def acceptPOST (ctx : AcceptCtx) : AcceptResponse × List AcceptEffect :=
  if !ctx.generationIdPresent then
    (.apiError 400 "VALIDATION_ERROR", [])
  else if !ctx.authOk then
    (.apiError 401 "UNAUTHORIZED", [])
  else if !acceptBodyValid ctx.items then
    (.apiError 400 "VALIDATION_ERROR", [])
  else
    match ctx.generationLookup with
    | none => (.apiError 404 "GENERATION_NOT_FOUND", [.generationQuery])
    | some gen =>
      if gen.user_id != ctx.userId then
        (.apiError 403 "FORBIDDEN", [.generationQuery])
      else
        let resolved : Option String × List AcceptEffect :=
          match ctx.deckIdParam with
          | some d => (some d, [.generationQuery])
          | none =>
            match ctx.existingFlashcardDeck with
            | some d => (some d, [.generationQuery, .flashcardsQuery])
            | none =>
              match ctx.recentDeck with
              | some d =>
                (some d, [.generationQuery, .flashcardsQuery, .recentDeckQuery])
              | none =>
                (none, [.generationQuery, .flashcardsQuery, .recentDeckQuery])
        match resolved with
        | (none, effs) => (.apiError 400 "VALIDATION_ERROR", effs)
        | (some _, effs) =>
          match ctx.deckLookup with
          | none => (.apiError 404 "DECK_NOT_FOUND", effs ++ [.deckQuery])
          | some deck =>
            if deck.user_id != ctx.userId then
              (.apiError 403 "FORBIDDEN", effs ++ [.deckQuery])
            else
              let rows := ctx.items.map toInsertRow
              if ctx.insertOk then
                (.created rows.length rows, effs ++ [.deckQuery, .insert rows])
              else
                (.apiError 500 "INTERNAL_SERVER_ERROR",
                 effs ++ [.deckQuery, .insert rows])

/-- Claim C1, the code evaluated at the failing input: against a provider
that always returns HTTP 401, `_request` with the default retry
configuration performs three HTTP calls and only then fails, not one —
the `catch` around the loop body swallows the thrown
`OpenRouterAPIError` and re-enters the loop whenever attempts remain,
contradicting the source's own no-retry-for-4xx comment and the
`_shouldRetry` classification. -/
theorem request_always401_makes_three_calls :
    request defaultRetryConfig resp401 =
      ⟨false, [.httpCall, .httpCall, .httpCall]⟩ ∧
    httpCalls (request defaultRetryConfig resp401) = 3 := by
  decide

/-- Claim C7: against a provider failing with HTTP 500 twice and then
succeeding, `_request` with the default configuration makes exactly three
HTTP calls, sleeps a backoff delay between failed attempts, and returns
the success. -/
theorem request_500_500_success_three_calls :
    request defaultRetryConfig resp500twice =
      ⟨true, [.httpCall, .sleepBackoff 1, .httpCall, .sleepBackoff 2,
              .httpCall]⟩ ∧
    httpCalls (request defaultRetryConfig resp500twice) = 3 := by
  decide

/-- Claim C4, the code evaluated at the failing input: a 429 without
`Retry-After` is retried, but not "with the exponential-backoff
schedule" — the trace between the two HTTP calls contains no backoff
sleep at all, whereas a 5xx in the same position sleeps a backoff
between attempts 1 and 2. -/
theorem request_429_bare_no_backoff_sleep :
    (request defaultRetryConfig resp429bare).trace =
      [.httpCall, .httpCall] ∧
    REvent.sleepBackoff 1 ∉ (request defaultRetryConfig resp429bare).trace ∧
    (request defaultRetryConfig resp429bare).success = true := by
  decide

/-- Supporting characterization of the loop step around claim C4: for
every configuration and response sequence, at any attempt with attempts
remaining, a 429 carrying `Retry-After: s` makes the loop sleep exactly
`s * 1000` milliseconds immediately after the failed call and before the
next attempt; a 429 without `Retry-After` is retried immediately, with
no sleep between the failed call and the next attempt. -/
theorem request_429_step (cfg : RetryConfig) (resp : Nat → ProviderResponse)
    (attempt fuel s : Nat) (h : attempt < cfg.attempts) :
    (resp attempt = .httpError 429 (some s) →
      requestGo cfg resp attempt (fuel + 1) =
        ⟨(requestGo cfg resp (attempt + 1) fuel).success,
         .httpCall :: .sleepRetryAfter (s * 1000) ::
           (requestGo cfg resp (attempt + 1) fuel).trace⟩) ∧
    (resp attempt = .httpError 429 none →
      requestGo cfg resp attempt (fuel + 1) =
        ⟨(requestGo cfg resp (attempt + 1) fuel).success,
         .httpCall :: (requestGo cfg resp (attempt + 1) fuel).trace⟩) := by
  have hna : ¬ cfg.attempts < attempt := by omega
  have hsr : shouldRetry cfg 429 attempt = true := by
    simp [shouldRetry]
    omega
  constructor
  · intro hr
    simp [requestGo, hna, hr, hsr]
  · intro hr
    have hne : ¬ attempt = cfg.attempts := by omega
    simp [requestGo, hna, hr, hsr, hne]

/-- Witness for `request_429_step`: instantiated at the default
configuration and a provider answering 429 with `Retry-After: 2` first. -/
theorem request_429_step_witness :
    requestGo defaultRetryConfig resp429after2 1 3 =
      ⟨true, [.httpCall, .sleepRetryAfter 2000, .httpCall]⟩ := by
  have h :=
    (request_429_step defaultRetryConfig resp429after2 1 2 2 (by decide)).1
      (by decide)
  rw [h]
  decide

/-- Claim C9: for every configuration, attempt number and jitter draw
`r ∈ [0, 1)`, the computed backoff equals the raw exponential value
`minTimeoutMs * factor ^ (attempt - 1)` perturbed by a jitter of
magnitude at most a quarter of that value, and capped so it never
exceeds 30000 ms. -/
theorem calculateBackoff_spec (cfg : RetryConfig) (attempt : Nat) (r : ℚ)
    (h0 : 0 ≤ r) (h1 : r < 1) :
    (∃ j : ℚ, |j| ≤ rawBackoff cfg attempt / 4 ∧
      calculateBackoff cfg attempt r =
        min (rawBackoff cfg attempt + j) 30000) ∧
    calculateBackoff cfg attempt r ≤ 30000 := by
  have hb : (0 : ℚ) ≤ rawBackoff cfg attempt := by
    unfold rawBackoff
    positivity
  constructor
  · refine ⟨rawBackoff cfg attempt * (1 / 4) * (r - 1 / 2), ?_, ?_⟩
    · have habs : |r - 1 / 2| ≤ 1 := by
        rw [abs_le]
        constructor <;> linarith
      calc |rawBackoff cfg attempt * (1 / 4) * (r - 1 / 2)|
          = rawBackoff cfg attempt * (1 / 4) * |r - 1 / 2| := by
            rw [abs_mul, abs_of_nonneg (by positivity)]
        _ ≤ rawBackoff cfg attempt * (1 / 4) * 1 :=
            mul_le_mul_of_nonneg_left habs (by positivity)
        _ = rawBackoff cfg attempt / 4 := by ring
    · simp [calculateBackoff, rawBackoff]
  · exact min_le_right _ _

/-- Witness for `calculateBackoff_spec`: at the default configuration,
attempt 1 and jitter draw 0, the delay respects the 30 s cap. -/
theorem calculateBackoff_spec_witness :
    calculateBackoff defaultRetryConfig 1 0 ≤ 30000 :=
  (calculateBackoff_spec defaultRetryConfig 1 0 (by norm_num) (by norm_num)).2

/-- Claim C3: for every store state, time, user and ceiling,
`checkGenerationRateLimit` fails open (`true`) when the count query
errors; otherwise it permits exactly when the trailing-hour count of
`generations` rows for that user is strictly below the ceiling — `false`
at exactly the ceiling, `true` at one below it. -/
theorem checkGenerationRateLimit_spec (rows : List GenerationRow)
    (now : Int) (userId : String) (c : Nat) :
    checkGenerationRateLimit rows true now userId c = true ∧
    (checkGenerationRateLimit rows false now userId c = true ↔
      recentGenerationCount rows now userId < c) ∧
    (recentGenerationCount rows now userId = c →
      checkGenerationRateLimit rows false now userId c = false) ∧
    (1 ≤ c → recentGenerationCount rows now userId = c - 1 →
      checkGenerationRateLimit rows false now userId c = true) := by
  refine ⟨by simp [checkGenerationRateLimit], ?_, ?_, ?_⟩
  · simp [checkGenerationRateLimit]
  · intro h
    simp [checkGenerationRateLimit, h]
  · intro hc h
    simp [checkGenerationRateLimit, h]
    omega

/-- Witness for `checkGenerationRateLimit_spec`: a user with exactly one
trailing-hour record is refused at ceiling 1, and a user with no records
is permitted at ceiling 1. -/
theorem checkGenerationRateLimit_spec_witness :
    checkGenerationRateLimit [⟨"u", 0⟩] false 0 "u" 1 = false ∧
    checkGenerationRateLimit [] false 0 "u" 1 = true := by
  constructor
  · exact (checkGenerationRateLimit_spec [⟨"u", 0⟩] 0 "u" 1).2.2.1 (by decide)
  · exact (checkGenerationRateLimit_spec [] 0 "u" 1).2.2.2 (by decide) (by decide)

/-- Claim C10, counterexample: a `sendMessage` call rejected by the basic
input validation (no user message, empty conversation) increments
`totalRequests` but neither `successfulRequests` nor `failedRequests`,
so after it `totalRequests ≠ successfulRequests + failedRequests`. -/
theorem sendMessage_validation_breaks_counter_invariant :
    (sendMessage initialUsageMetrics ⟨false, 0⟩ (.ok none)).1.totalRequests = 1 ∧
    (sendMessage initialUsageMetrics ⟨false, 0⟩ (.ok none)).1.successfulRequests = 0 ∧
    (sendMessage initialUsageMetrics ⟨false, 0⟩ (.ok none)).1.failedRequests = 0 ∧
    ¬ (sendMessage initialUsageMetrics ⟨false, 0⟩ (.ok none)).1.totalRequests =
        (sendMessage initialUsageMetrics ⟨false, 0⟩ (.ok none)).1.successfulRequests +
        (sendMessage initialUsageMetrics ⟨false, 0⟩ (.ok none)).1.failedRequests := by
  decide

/-- Claim C10, amended: every `sendMessage` call that passes the basic
input validation (a user message is present or the conversation is
non-empty) increments `totalRequests` and exactly one of
`successfulRequests`/`failedRequests`, preserving
`totalRequests = successfulRequests + failedRequests`; every call —
including validation-rejected ones — preserves the weaker invariant
`successfulRequests + failedRequests ≤ totalRequests`. -/
theorem sendMessage_counter_invariant (m : UsageMetrics) (p : SendParams)
    (o : SendResult) :
    (p.hasUserMessage = true ∨ 0 < p.conversationLen →
      m.totalRequests = m.successfulRequests + m.failedRequests →
      (sendMessage m p o).1.totalRequests =
        (sendMessage m p o).1.successfulRequests +
        (sendMessage m p o).1.failedRequests) ∧
    (m.successfulRequests + m.failedRequests ≤ m.totalRequests →
      (sendMessage m p o).1.successfulRequests +
        (sendMessage m p o).1.failedRequests ≤
        (sendMessage m p o).1.totalRequests) := by
  obtain ⟨hu, cl⟩ := p
  constructor
  · intro hv hm
    simp only at hv
    rcases o with t | _ <;> simp only [sendMessage] <;> split <;>
      simp_all <;> omega
  · intro hm
    rcases o with t | _ <;> simp only [sendMessage] <;> split <;>
      simp_all <;> omega

/-- Witness for `sendMessage_counter_invariant`: a failing call with a
user message present keeps the equality, starting from the zero state. -/
theorem sendMessage_counter_invariant_witness :
    (sendMessage initialUsageMetrics ⟨true, 0⟩ .errorThrown).1.totalRequests =
      (sendMessage initialUsageMetrics ⟨true, 0⟩ .errorThrown).1.successfulRequests +
      (sendMessage initialUsageMetrics ⟨true, 0⟩ .errorThrown).1.failedRequests :=
  (sendMessage_counter_invariant initialUsageMetrics ⟨true, 0⟩ .errorThrown).1
    (Or.inl rfl) rfl

/-- A 1000-character source text that passes validation unchanged. -/
def validSourceText : List Char := List.replicate 1000 'a'

/-- A request body that passes validation with both defaults applied. -/
def validBody : GenerateRawBody :=
  { source_text := validSourceText, model := none, count := none }

/-- A fully gated generate invocation (valid body, owned deck, rate limit
permits) in which the AI call succeeds but the audit insert fails. -/
def gatedCtxAuditFail : GenerateCtx :=
  { deckIdPresent := true, authOk := true, userId := "u", body := validBody,
    deckLookup := some ⟨"u"⟩, rateLimitOk := true, aiOutcome := .ok 10 5,
    auditInsertOk := false, errorLogInsertOk := true }

/-- The same gated invocation with the audit insert succeeding. -/
def gatedCtxOk : GenerateCtx :=
  { gatedCtxAuditFail with auditInsertOk := true }

/-- Claim C2, counterexample: a gated attempt (the AI call is reached and
succeeds) whose audit insert fails creates neither a `generations` row
nor a `generation_error_logs` row — the thrown generic error lands in the
outer catch, which does not write an error record. -/
theorem generate_gated_attempt_no_record :
    (generatePOST gatedCtxAuditFail).created = [] ∧
    GenEffect.aiCall ∈ (generatePOST gatedCtxAuditFail).effects := by
  decide

/-- Claim C2, amended: per gated attempt the handler never creates both
records; it creates exactly one provided the record insert itself
succeeds (audit row on AI success when the audit insert succeeds, error
row on AI failure when the error-log insert succeeds); when the relevant
insert fails, no record at all is created. -/
theorem generate_record_exclusivity (ctx : GenerateCtx)
    (input : GenerateInput) (deck : Deck)
    (h1 : ctx.deckIdPresent = true) (h2 : ctx.authOk = true)
    (h3 : generateFlashcardsSafeParse ctx.body = some input)
    (h4 : ctx.deckLookup = some deck) (h5 : deck.user_id = ctx.userId)
    (h6 : ctx.rateLimitOk = true) :
    ((generatePOST ctx).created = [.audit] ∨
     (generatePOST ctx).created = [.errorLog] ∨
     (generatePOST ctx).created = []) ∧
    (ctx.auditInsertOk = true → ctx.errorLogInsertOk = true →
      (generatePOST ctx).created = [.audit] ∨
      (generatePOST ctx).created = [.errorLog]) ∧
    (∀ n d, ctx.aiOutcome = .ok n d → ctx.auditInsertOk = true →
      (generatePOST ctx).created = [.audit]) ∧
    (∀ e, ctx.aiOutcome = .genError e → ctx.errorLogInsertOk = true →
      (generatePOST ctx).created = [.errorLog]) := by
  simp only [generatePOST, h1, h2, h3, h4, h5, h6, Bool.not_true,
    Bool.false_eq_true, if_false, bne_self_eq_false]
  rcases hai : ctx.aiOutcome with ⟨n, d⟩ | e <;>
    rcases hins : ctx.auditInsertOk with _ | _ <;>
      rcases herr : ctx.errorLogInsertOk with _ | _ <;>
        simp_all

/-- Witness for `generate_record_exclusivity`: the fully successful gated
invocation creates exactly the audit record. -/
theorem generate_record_exclusivity_witness :
    (generatePOST gatedCtxOk).created = [RecordKind.audit] :=
  (generate_record_exclusivity gatedCtxOk
    ⟨validSourceText, "openai/gpt-4o", 10⟩ ⟨"u"⟩ rfl rfl (by decide) rfl rfl
    rfl).2.2.1 10 5 rfl rfl

/-- Claim C5, counterexample: when the provider call succeeds but the
audit insert fails, the caller does not receive the suggestions — the
endpoint answers 500 `INTERNAL_SERVER_ERROR` instead of a success
response. -/
theorem generate_auditFail_returns_500 :
    (generatePOST gatedCtxAuditFail).response =
      .apiError 500 "INTERNAL_SERVER_ERROR" ∧
    gatedCtxAuditFail.aiOutcome = .ok 10 5 := by
  decide

/-- Claim C5, amended: for every gated invocation whose AI call succeeds,
a failing audit insert makes the handler throw, so the caller receives a
500 `INTERNAL_SERVER_ERROR` error response rather than the suggestions;
the suggestions are only returned when the audit insert succeeds. -/
theorem generate_auditFail_response (ctx : GenerateCtx)
    (input : GenerateInput) (deck : Deck) (n d : Nat)
    (h1 : ctx.deckIdPresent = true) (h2 : ctx.authOk = true)
    (h3 : generateFlashcardsSafeParse ctx.body = some input)
    (h4 : ctx.deckLookup = some deck) (h5 : deck.user_id = ctx.userId)
    (h6 : ctx.rateLimitOk = true) (hai : ctx.aiOutcome = .ok n d) :
    (ctx.auditInsertOk = false →
      (generatePOST ctx).response = .apiError 500 "INTERNAL_SERVER_ERROR") ∧
    (ctx.auditInsertOk = true →
      (generatePOST ctx).response = .ok n d input.model) := by
  simp only [generatePOST, h1, h2, h3, h4, h5, h6, hai, Bool.not_true,
    Bool.false_eq_true, if_false, bne_self_eq_false]
  rcases hins : ctx.auditInsertOk with _ | _ <;> simp_all

/-- Witness for `generate_auditFail_response`: the concrete gated
invocation with failing audit insert yields the 500 response. -/
theorem generate_auditFail_response_witness :
    (generatePOST gatedCtxAuditFail).response =
      GenResponse.apiError 500 "INTERNAL_SERVER_ERROR" :=
  (generate_auditFail_response gatedCtxAuditFail
    ⟨validSourceText, "openai/gpt-4o", 10⟩ ⟨"u"⟩ 10 5 rfl rfl (by decide)
    rfl rfl rfl rfl).1 rfl

/-- Claim C6: a request body failing `generateFlashcardsSchema` —
in particular a trimmed source text shorter than 1000 or longer than
10000 characters, a non-integer or out-of-[5,20] count, or a model not on
the allow-list — makes the generate handler answer 400
`VALIDATION_ERROR` with no deck query, no rate-limit query, no AI call
and no insert; when `model` and `count` are omitted and the text is
valid, the defaults `"openai/gpt-4o"` and 10 are applied. -/
theorem generate_validation_gate (ctx : GenerateCtx) (b : GenerateRawBody)
    (q : ℚ) (m : String) (s : List Char) :
    (ctx.deckIdPresent = true → ctx.authOk = true →
      generateFlashcardsSafeParse ctx.body = none →
      generatePOST ctx = ⟨.apiError 400 "VALIDATION_ERROR", [], []⟩) ∧
    ((jsTrim b.source_text).length < 1000 ∨
        10000 < (jsTrim b.source_text).length →
      generateFlashcardsSafeParse b = none) ∧
    (b.count = some q → (q.den ≠ 1 ∨ q < 5 ∨ 20 < q) →
      generateFlashcardsSafeParse b = none) ∧
    (b.model = some m → m ∉ allowedModels →
      generateFlashcardsSafeParse b = none) ∧
    (1000 ≤ (jsTrim s).length → (jsTrim s).length ≤ 10000 →
      generateFlashcardsSafeParse
          { source_text := s, model := none, count := none } =
        some { source_text := jsTrim s, model := "openai/gpt-4o",
               count := 10 }) := by
  refine ⟨?_, ?_, ?_, ?_, ?_⟩
  · intro h1 h2 h3
    simp [generatePOST, h1, h2, h3]
  · intro h
    rcases h with h | h
    · simp [generateFlashcardsSafeParse, h]
    · have h' : ¬ (jsTrim b.source_text).length < 1000 := by omega
      simp [generateFlashcardsSafeParse, h, h']
  · intro hq hbad
    have hcond : ((q.den == 1 : Bool) && (5 ≤ q) && (q ≤ 20)) = false := by
      rcases hbad with h | h | h
      · simp [h]
      · simp [not_le.mpr h]
      · simp [not_le.mpr h]
    by_cases hl1 : (jsTrim b.source_text).length < 1000
    · simp [generateFlashcardsSafeParse, hl1]
    · by_cases hl2 : 10000 < (jsTrim b.source_text).length
      · simp [generateFlashcardsSafeParse, hl1, hl2]
      · rcases hm : b.model with _ | mo
        · simp [generateFlashcardsSafeParse, hl1, hl2, hm, hq, hcond]
        · by_cases hin : mo ∈ allowedModels <;>
            simp [generateFlashcardsSafeParse, hl1, hl2, hm, hq, hin, hcond]
  · intro hm hnotin
    by_cases hl1 : (jsTrim b.source_text).length < 1000
    · simp [generateFlashcardsSafeParse, hl1]
    · by_cases hl2 : 10000 < (jsTrim b.source_text).length
      · simp [generateFlashcardsSafeParse, hl1, hl2]
      · simp [generateFlashcardsSafeParse, hl1, hl2, hm, hnotin]
  · intro hlo hhi
    have h1 : ¬ (jsTrim s).length < 1000 := by omega
    have h2 : ¬ 10000 < (jsTrim s).length := by omega
    simp [generateFlashcardsSafeParse, h1, h2]

/-- A generate invocation whose collaborators are all primed to succeed
but whose source text is empty (fails validation). -/
def invalidBodyCtx : GenerateCtx :=
  { gatedCtxOk with body := { source_text := [], model := none, count := none } }

/-- Witness for `generate_validation_gate`: the empty source text is
rejected with 400 and an empty effect trace even though every
collaborator was primed to succeed, and a valid 1000-character body with
omitted fields parses to the defaults. -/
theorem generate_validation_gate_witness :
    generatePOST invalidBodyCtx =
      ⟨GenResponse.apiError 400 "VALIDATION_ERROR", [], []⟩ ∧
    generateFlashcardsSafeParse validBody =
      some { source_text := jsTrim validSourceText, model := "openai/gpt-4o",
             count := 10 } := by
  constructor
  · exact (generate_validation_gate invalidBodyCtx invalidBodyCtx.body 0 "" []).1
      rfl rfl (by decide)
  · exact (generate_validation_gate invalidBodyCtx validBody 0 "" validSourceText).2.2.2.2
      (by decide) (by decide)

/-- Claim C8: an empty batch or one of more than 50 items is rejected
with 400 `VALIDATION_ERROR` before any external operation (in particular
before any insert); a gated valid batch is written in one single batch
insert whose rows carry provenance `"ai-edited"` for items flagged
`was_edited` and `"ai-full"` otherwise, and the 201 response reports the
created rows and their count. -/
theorem accept_provenance_and_batch (ctx : AcceptCtx)
    (gen : GenerationOwner) (deck : Deck) (d : String) :
    (ctx.generationIdPresent = true → ctx.authOk = true →
      (ctx.items.length = 0 ∨ 50 < ctx.items.length) →
      acceptPOST ctx = (.apiError 400 "VALIDATION_ERROR", [])) ∧
    (ctx.generationIdPresent = true → ctx.authOk = true →
      acceptBodyValid ctx.items = true →
      ctx.generationLookup = some gen → gen.user_id = ctx.userId →
      ctx.deckIdParam = some d →
      ctx.deckLookup = some deck → deck.user_id = ctx.userId →
      ctx.insertOk = true →
      acceptPOST ctx =
        (.created ctx.items.length (ctx.items.map toInsertRow),
         [.generationQuery, .deckQuery,
          .insert (ctx.items.map toInsertRow)])) ∧
    (∀ i : AcceptItem, (toInsertRow i).source =
      if i.was_edited then "ai-edited" else "ai-full") := by
  refine ⟨?_, ?_, fun _ => rfl⟩
  · intro h1 h2 hlen
    have hinvalid : acceptBodyValid ctx.items = false := by
      rcases hlen with h | h <;> simp [acceptBodyValid, h]
    simp [acceptPOST, h1, h2, hinvalid]
  · intro h1 h2 hvalid hgen hguser hdid hdeck hduser hins
    simp [acceptPOST, h1, h2, hvalid, hgen, hguser, hdid, hdeck, hduser, hins]

/-- A gated acceptance invocation: one unedited and one edited item, an
owned generation, an explicitly supplied owned deck, succeeding insert. -/
def acceptCtxTwoItems : AcceptCtx :=
  { generationIdPresent := true, authOk := true, userId := "u",
    items := [⟨['q'], ['a'], false⟩, ⟨['q'], ['a'], true⟩],
    generationLookup := some ⟨"u"⟩, deckIdParam := some "d",
    existingFlashcardDeck := none, recentDeck := none,
    deckLookup := some ⟨"u"⟩, insertOk := true }

/-- The same invocation with an empty batch. -/
def acceptCtxEmpty : AcceptCtx :=
  { acceptCtxTwoItems with items := [] }

/-- Witness for `accept_provenance_and_batch`: the empty batch is
rejected before any external operation, and the two-item batch is
inserted in one batch write with provenance `"ai-full"` for the unedited
item and `"ai-edited"` for the edited one. -/
theorem accept_provenance_and_batch_witness :
    acceptPOST acceptCtxEmpty =
      (AcceptResponse.apiError 400 "VALIDATION_ERROR", []) ∧
    acceptPOST acceptCtxTwoItems =
      (AcceptResponse.created 2
        [⟨['q'], ['a'], "ai-full"⟩, ⟨['q'], ['a'], "ai-edited"⟩],
       [.generationQuery, .deckQuery,
        .insert [⟨['q'], ['a'], "ai-full"⟩, ⟨['q'], ['a'], "ai-edited"⟩]]) := by
  constructor
  · exact (accept_provenance_and_batch acceptCtxEmpty ⟨"u"⟩ ⟨"u"⟩ "d").1
      rfl rfl (Or.inl rfl)
  · have h := (accept_provenance_and_batch acceptCtxTwoItems ⟨"u"⟩ ⟨"u"⟩ "d").2.1
      rfl rfl (by decide) rfl rfl rfl rfl rfl rfl
    rw [h]
    decide
